import Mathlib

/-!
# Verification of `telemetry_posthog.py` (qodex-ai/apimesh)

A shallow embedding of the PostHog telemetry module of apimesh, and proofs
about its behaviour.  The embedding models:

* JSON values (`JValue`) as parsed by the standard JSON parser, with Python
  dictionaries as insertion-ordered association lists with unique keys;
* the file-system state at the telemetry config path (`FileState`) as seen by
  `_load_json` / `_save_json`: the file may be missing, unreadable (reading
  raises), hold text that is not valid JSON, or hold valid JSON parsing to
  some `JValue`;
* Python exceptions that can escape the module (`PyExc`), with fallible
  operations returning `Except PyExc`;
* UUID generation as an explicit supply `gen : Nat -> String` indexed by a
  counter held in `World`, and wall-clock readings of `time.time()` as
  explicit rational parameters.
-/

/-- A parsed JSON value.  Python `json.loads` returns `None`, `bool`, numbers,
`str`, `list` or `dict`; dictionaries preserve insertion order, which an
association list models (numbers are modelled as integers; none of the
verified properties depends on non-integral numbers). -/
inductive JValue where
  | null
  | bool (b : Bool)
  | num (n : Int)
  | str (s : String)
  | arr (elems : List JValue)
  | obj (fields : List (String × JValue))
deriving Repr

/-- A Python dictionary with string keys, as `json.loads` produces for a JSON
object: insertion-ordered association list (keys unique in any dict that
Python can actually build). -/
abbrev Dict := List (String × JValue)

/-- Python truthiness of a JSON value: `not x` is true exactly for `None`,
`False`, `0`, the empty string, the empty list and the empty dict. -/
def falsy : JValue → Bool
  | .null => true
  | .bool b => !b
  | .num n => n == 0
  | .str s => s == ""
  | .arr elems => elems.isEmpty
  | .obj fields => fields.isEmpty

/-- The Python type name of a value, as used in `AttributeError` messages. -/
def pyTypeName : JValue → String
  | .null => "NoneType"
  | .bool _ => "bool"
  | .num _ => "int"
  | .str _ => "str"
  | .arr _ => "list"
  | .obj _ => "dict"

/-- `d[k]` lookup returning `Option`: Python `dict.get(k)` on an ordered
association list (first matching key; a real Python dict has unique keys). -/
def dictGet : Dict → String → Option JValue
  | [], _ => none
  | (k0, v0) :: rest, k => if k0 == k then some v0 else dictGet rest k

/-- `d[k] = v` assignment on a Python dict: replaces the value of an existing
key in place (keeping its position), otherwise appends the new pair at the
end, exactly as CPython insertion order works. -/
def dictSet : Dict → String → JValue → Dict
  | [], k, v => [(k, v)]
  | (k0, v0) :: rest, k, v =>
      if k0 == k then (k0, v) :: rest else (k0, v0) :: dictSet rest k v

/-- `d.update(e)`: assign every pair of `e` into `d`, in order. -/
def dictUpdate (d e : Dict) : Dict :=
  e.foldl (fun acc p => dictSet acc p.1 p.2) d

/-- The state of the file at the telemetry config path, as `_load_json` and
`_save_json` observe it. -/
inductive FileState where
  /-- `path.exists()` is false. -/
  | missing
  /-- The file exists but `read_text` raises (permissions, encoding, ...). -/
  | unreadable
  /-- The file reads fine but `json.loads` raises on its text. -/
  | malformed
  /-- The file holds valid JSON whose parse is `v` (not necessarily an
  object: `json.loads` happily returns a list, a string, a number, ...). -/
  | content (v : JValue)
deriving Repr

/-- The world state a telemetry call threads: the config file, whether writes
to it succeed, and the position in the UUID supply. -/
structure World where
  fs : FileState
  writable : Bool
  counter : Nat
deriving Repr

/-- The Python exceptions that this module can raise or observe. -/
inductive PyExc where
  /-- `AttributeError` raised when `.get` is called on a non-dict; the field
  is the Python type name of the receiver (message
  `<type> object has no attribute get` in quotes). -/
  | attributeError (objType : String)
  /-- A stand-in for an arbitrary exception raised by wrapped work. -/
  | valueError (msg : String)
  /-- Another stand-in exception kind, to express type distinctions. -/
  | runtimeError (msg : String)
deriving Repr

/-- `type(e).__name__` for the modelled exceptions. -/
def PyExc.typeName : PyExc → String
  | .attributeError _ => "AttributeError"
  | .valueError _ => "ValueError"
  | .runtimeError _ => "RuntimeError"

/-- `_load_json`: returns the parsed content of the file, and `{}` when the
file is missing or reading/parsing raises (the `try`/`except` swallows every
error).  Note it returns whatever `json.loads` produced, object or not. -/
def load_json : FileState → JValue
  | .missing => .obj []
  | .unreadable => .obj []
  | .malformed => .obj []
  | .content v => v

/-- `_save_json`: serialize `d` and write it to the file, swallowing every
error.  On success the file afterwards holds valid JSON parsing back to `d`;
on failure (unwritable path) the file is left exactly as it was. -/
def save_json (fs : FileState) (writable : Bool) (d : Dict) : FileState :=
  if writable then .content (.obj d) else fs

/-- The config key under which the install id is stored. -/
def INSTALL_ID_KEY : String := "telemetry_install_id"

/-- `_get_or_create_install_id`: load the config, look up the install id,
and if it is absent or falsy generate a fresh UUID, store it and save.
`cfg.get(...)` raises `AttributeError` when the file parsed to a non-dict
value, and that exception propagates to the caller (the `try`/`except`
blocks sit inside `_load_json` / `_save_json` only). -/
def get_or_create_install_id (gen : Nat → String) (st : World) :
    Except PyExc (World × JValue) :=
  match load_json st.fs with
  | .obj d =>
      let stored := dictGet d INSTALL_ID_KEY
      if stored.all falsy then
        -- `if not iid:` — absent or falsy: create a fresh random id
        let iid := gen st.counter
        let d1 := dictSet d INSTALL_ID_KEY (.str iid)
        Except.ok ({ fs := save_json st.fs st.writable d1,
                     writable := st.writable,
                     counter := st.counter + 1 }, .str iid)
      else
        Except.ok (st, stored.getD .null)
  | v => Except.error (.attributeError (pyTypeName v))

example :
    get_or_create_install_id (fun n => toString n)
      { fs := .missing, writable := true, counter := 0 } =
    Except.ok ({ fs := .content (.obj [("telemetry_install_id", .str "0")]),
                 writable := true, counter := 1 }, .str "0") := by rfl

example :
    get_or_create_install_id (fun n => toString n)
      { fs := .content (.arr []), writable := true, counter := 0 } =
    Except.error (.attributeError "list") := by rfl

/-- Compiled-in default PostHog project API key (module constant). -/
def DEFAULT_POSTHOG_API_KEY : String :=
  "phc_te3mp08IuF167Pd3zQvC0ocdGd4Wj2undKV1cEQE1n1"

/-- Compiled-in default PostHog host (module constant). -/
def DEFAULT_POSTHOG_HOST : String := "https://us.i.posthog.com"

/-- Compiled-in default for the enabled flag (module constant). -/
def DEFAULT_TELEMETRY_ENABLED : Bool := true

/-- The process environment, restricted to the variables the module reads.
`none` models an unset variable. -/
structure Env where
  telemetry : Option String
  posthog_api_key : Option String
  default_posthog_api_key : Option String
  posthog_host : Option String
  default_posthog_host : Option String

/-- Python `a or b` on strings: the empty string is falsy, so the result is
`b` exactly when `a` is empty. -/
def pyOr (a b : String) : String := if a == "" then b else a

/-- Line 84: `DEFAULT_TELEMETRY_ENABLED if env_enabled is None else
env_enabled == "1"`. -/
def resolve_enabled_flag (env_enabled : Option String) : Bool :=
  match env_enabled with
  | none => DEFAULT_TELEMETRY_ENABLED
  | some s => s == "1"

/-- Lines 86-90: `os.getenv("APIMESH_POSTHOG_API_KEY", "").strip() or
os.getenv("APIMESH_DEFAULT_POSTHOG_API_KEY", "").strip() or
DEFAULT_POSTHOG_API_KEY`. -/
def resolve_api_key (env : Env) : String :=
  pyOr (env.posthog_api_key.getD "").trim
    (pyOr (env.default_posthog_api_key.getD "").trim DEFAULT_POSTHOG_API_KEY)

/-- Lines 91-95: the host resolves the same way from its two variables. -/
def resolve_host (env : Env) : String :=
  pyOr (env.posthog_host.getD "").trim
    (pyOr (env.default_posthog_host.getD "").trim DEFAULT_POSTHOG_HOST)

/-- Line 96: `enabled and bool(api_key)` — the flag is anded with
non-emptiness of the resolved API key. -/
def effective_enabled (flag : Bool) (api_key : String) : Bool :=
  flag && !(api_key == "")

/-- The `PostHogTelemetry` dataclass.  The `cfg_path` field only names where
the config file lives; the file itself is the `World` threaded through the
operations, so the path string is not modelled. -/
structure PostHogTelemetry where
  enabled : Bool
  api_key : String
  host : String := DEFAULT_POSTHOG_HOST

/-- An event payload handed to the background `_safe_post_json` task
(the dict built at lines 110-116). -/
structure Payload where
  api_key : String
  distinct_id : JValue
  event : String
  properties : Dict
  timestamp : String

/-- `PostHogTelemetry.from_env`: resolve the flag, key and host from the
environment; `enabled` is the flag anded with key non-emptiness. -/
def PostHogTelemetry.from_env (env : Env) : PostHogTelemetry :=
  let enabled := resolve_enabled_flag env.telemetry
  let api_key := resolve_api_key env
  let host := resolve_host env
  { enabled := effective_enabled enabled api_key, api_key := api_key,
    host := host }

/-- `_safe_post_json`: serialize and POST, catching every exception
(`except Exception: return`).  Whatever the network or serialization outcome,
the background task finishes without effect on anything modelled. -/
def safe_post_json (outcome : Except PyExc Unit) : Unit :=
  match outcome with
  | .ok _ => ()
  | .error _ => ()

/-- `PostHogTelemetry.capture`: no-op when disabled; otherwise resolve the
install id (which can raise, see `get_or_create_install_id`), build the
payload and hand it to a fire-and-forget background thread.  `gen` is the
UUID supply and `now` the value `_now_iso()` would return.  The result is
the new world plus the payload dispatched, if any; `Except.error` models an
exception escaping to `capture`'s caller. -/
def PostHogTelemetry.capture (t : PostHogTelemetry) (gen : Nat → String)
    (now : String) (st : World) (event : String) (properties : Option Dict)
    (timestamp : Option String) : Except PyExc (World × Option Payload) :=
  if !t.enabled then Except.ok (st, none)
  else
    match get_or_create_install_id gen st with
    | .error e => Except.error e
    | .ok (st1, install_id) =>
        let payload : Payload :=
          { api_key := t.api_key
            distinct_id := install_id
            event := event
            -- `properties or {}`: None (and the falsy empty dict) become {}
            properties := properties.getD []
            -- `timestamp or _now_iso()`: None (and the falsy empty string)
            -- fall back to the current time
            timestamp := pyOr (timestamp.getD "") now }
        Except.ok (st1, some payload)

/-- Python `int(q)` for the duration computation: truncation toward zero. -/
def py_int (q : ℚ) : Int := if 0 ≤ q then q.floor else q.ceil

/-- The properties dict the stage scope builds at lines 133-137:
the built-in fields, then `error_type` when the work failed, then
`props.update(extra)` for a truthy (non-empty) extra. -/
def stage_props (run_id name : String) (dt_ms : Int) (ok : Bool)
    (err_type : Option String) (extra : Option Dict) : Dict :=
  let props : Dict :=
    [("run_id", .str run_id), ("stage", .str name),
     ("duration_ms", .num dt_ms), ("success", .bool ok)]
  -- `if err_type:` — a None (or empty) error type adds no field
  let props :=
    match err_type with
    | some e => if e == "" then props else dictSet props "error_type" (.str e)
    | none => props
  -- `if extra:` — a None (or empty) extra updates nothing
  match extra with
  | some e => if e.isEmpty then props else dictUpdate props e
  | none => props

/-- The observable outcome of a `stage` scope: the final world, the payload
handed to the background dispatch (if any), and the exception propagating to
the caller of the scope (if any). -/
structure StageResult where
  world : World
  dispatched : Option Payload
  raised : Option PyExc

/-- The `finally:` block of `stage` (lines 131-138): compute `dt_ms`, build
the properties and run `capture`, with `ok`, `err_type` and the in-flight
exception `orig` as the `try`/`except` part left them.  In Python an
exception raised inside `finally` replaces the in-flight one, so when
`capture` raises, its exception — not `orig` — reaches the caller.
`capture` raises, when it does, before any state change, so the world is
unchanged on that path. -/
def stage_finally (t : PostHogTelemetry) (gen : Nat → String) (now : String)
    (st : World) (run_id name : String) (extra : Option Dict) (ok : Bool)
    (err_type : Option String) (orig : Option PyExc) (t0 t1 : ℚ) :
    StageResult :=
  match t.capture gen now st "apimesh_stage_finished"
      (some (stage_props run_id name (py_int ((t1 - t0) * 1000)) ok err_type
        extra)) none with
  | .error ce => { world := st, dispatched := none, raised := some ce }
  | .ok (st1, p) => { world := st1, dispatched := p, raised := orig }

/-- The `stage` context manager around a unit of work that either returns or
raises (`work`).  `t0` and `t1` are the two `time.time()` readings.  The
`try:` part sets `ok`/`err_type` from the work's outcome and keeps the
original exception in flight for the re-raise; the `finally:` part is
`stage_finally`. -/
def PostHogTelemetry.stage (t : PostHogTelemetry) (gen : Nat → String)
    (now : String) (st : World) (run_id name : String) (extra : Option Dict)
    (work : Except PyExc Unit) (t0 t1 : ℚ) : StageResult :=
  match work with
  | .ok _ => stage_finally t gen now st run_id name extra true none none t0 t1
  | .error e =>
      stage_finally t gen now st run_id name extra false (some e.typeName)
        (some e) t0 t1

/-- The result of the `n + 1`-st call to `_get_or_create_install_id` in a row,
each call running on the world the previous one produced (an exception stops
the sequence). -/
def nth_call (gen : Nat → String) (st : World) : Nat → Except PyExc (World × JValue)
  | 0 => get_or_create_install_id gen st
  | n + 1 =>
      match nth_call gen st n with
      | .ok (st1, _) => get_or_create_install_id gen st1
      | .error e => .error e

/-! ## Dictionary lemmas -/

theorem dictGet_dictSet_self (d : Dict) (k : String) (v : JValue) :
    dictGet (dictSet d k v) k = some v := by
  induction d with
  | nil => simp [dictSet, dictGet]
  | cons p rest ih =>
      obtain ⟨k0, v0⟩ := p
      by_cases h : k0 = k
      · subst h
        simp [dictSet, dictGet]
      · simp [dictSet, dictGet, h, ih]

theorem dictGet_dictSet_ne (d : Dict) (k k1 : String) (v : JValue)
    (h : k1 ≠ k) : dictGet (dictSet d k v) k1 = dictGet d k1 := by
  have h2 : k ≠ k1 := Ne.symm h
  induction d with
  | nil => simp [dictSet, dictGet, h2]
  | cons p rest ih =>
      obtain ⟨k0, v0⟩ := p
      by_cases h0 : k0 = k
      · subst h0
        simp [dictSet, dictGet, h2]
      · simp [dictSet, dictGet, h0, ih]

theorem dictGet_eq_none_of_not_mem (e : Dict) (k : String)
    (h : k ∉ e.map Prod.fst) : dictGet e k = none := by
  induction e with
  | nil => simp [dictGet]
  | cons p rest ih =>
      obtain ⟨k0, v0⟩ := p
      simp only [List.map_cons, List.mem_cons] at h
      push_neg at h
      have h1 : k0 ≠ k := Ne.symm h.1
      simp [dictGet, h1, ih h.2]

theorem dictGet_dictUpdate_of_none (d e : Dict) (k : String)
    (h : dictGet e k = none) : dictGet (dictUpdate d e) k = dictGet d k := by
  induction e generalizing d with
  | nil => simp [dictUpdate]
  | cons p rest ih =>
      obtain ⟨k0, v0⟩ := p
      simp only [dictGet] at h
      by_cases h0 : k0 = k
      · simp [h0] at h
      · simp only [h0, if_false, beq_iff_eq] at h
        have hstep : dictUpdate d ((k0, v0) :: rest) = dictUpdate (dictSet d k0 v0) rest := rfl
        rw [hstep, ih (dictSet d k0 v0) h, dictGet_dictSet_ne _ _ _ _ fun hh => h0 hh.symm]

theorem dictGet_dictUpdate_of_some (d e : Dict) (k : String) (v : JValue)
    (hnd : (e.map Prod.fst).Nodup) (h : dictGet e k = some v) :
    dictGet (dictUpdate d e) k = some v := by
  induction e generalizing d with
  | nil => simp [dictGet] at h
  | cons p rest ih =>
      obtain ⟨k0, v0⟩ := p
      simp only [List.map_cons, List.nodup_cons] at hnd
      have hstep : dictUpdate d ((k0, v0) :: rest) = dictUpdate (dictSet d k0 v0) rest := rfl
      simp only [dictGet] at h
      by_cases h0 : k0 = k
      · subst h0
        simp only [beq_self_eq_true, if_true, Option.some.injEq] at h
        subst h
        have hrest : dictGet rest k0 = none :=
          dictGet_eq_none_of_not_mem rest k0 hnd.1
        rw [hstep, dictGet_dictUpdate_of_none _ _ _ hrest, dictGet_dictSet_self]
      · simp only [h0, if_false, beq_iff_eq] at h
        rw [hstep, ih (dictSet d k0 v0) hnd.2 h]

/-! ## Behaviour of the install-id getter -/

/-- When the config loads to an object holding a truthy value under the
install-id key, the call returns that value and changes nothing. -/
theorem get_or_create_of_truthy (gen : Nat → String) (st : World) (d : Dict)
    (v : JValue) (hload : load_json st.fs = JValue.obj d)
    (hget : dictGet d INSTALL_ID_KEY = some v) (ht : falsy v = false) :
    get_or_create_install_id gen st = Except.ok (st, v) := by
  unfold get_or_create_install_id
  rw [hload]
  simp [hget, Option.all, ht]

/-- When the config loads to an object with no truthy install id, the call
generates `gen st.counter`, stores it and saves. -/
theorem get_or_create_creates (gen : Nat → String) (st : World) (d : Dict)
    (hload : load_json st.fs = JValue.obj d)
    (hno : (dictGet d INSTALL_ID_KEY).all falsy = true) :
    get_or_create_install_id gen st =
      Except.ok
        ({ fs := save_json st.fs st.writable
                   (dictSet d INSTALL_ID_KEY (.str (gen st.counter))),
           writable := st.writable, counter := st.counter + 1 },
         .str (gen st.counter)) := by
  unfold get_or_create_install_id
  rw [hload]
  simp [hno]

/-- A world on which the getter is a fixed point makes every later call in
the sequence return the same answer. -/
theorem nth_call_const (gen : Nat → String) (st st1 : World) (i : JValue)
    (h0 : get_or_create_install_id gen st = Except.ok (st1, i))
    (h1 : get_or_create_install_id gen st1 = Except.ok (st1, i)) (n : Nat) :
    nth_call gen st n = Except.ok (st1, i) := by
  induction n with
  | zero => exact h0
  | succ n ih => simp [nth_call, ih, h1]

/-! ## Environment-resolution lemmas -/

theorem pyOr_ne_empty (a b : String) (hb : b ≠ "") : pyOr a b ≠ "" := by
  unfold pyOr
  split
  · exact hb
  · next h => simpa using h

theorem resolve_api_key_ne_empty (env : Env) : resolve_api_key env ≠ "" :=
  pyOr_ne_empty _ _ (pyOr_ne_empty _ _ (by decide))

/-- The key guard at line 96 never fires through `from_env`: the resolved key
is never empty, so the stored flag is exactly the flag resolution. -/
theorem from_env_enabled_eq (env : Env) :
    (PostHogTelemetry.from_env env).enabled =
      resolve_enabled_flag env.telemetry := by
  have h2 : (resolve_api_key env == "") = false :=
    beq_eq_false_iff_ne.mpr (resolve_api_key_ne_empty env)
  simp [PostHogTelemetry.from_env, effective_enabled, h2]

/-! ## The claims -/

/-- C1 (code_bug): the spec says `capture` never raises for any file-system
state at the config path, the non-object-JSON states included; but on a
config file holding valid non-object JSON (here the array `[1, 2]`),
`json.loads` succeeds inside `_load_json`, the `try`/`except` swallows
nothing, and `cfg.get(...)` then raises `AttributeError`, which escapes
`capture` to its caller. -/
theorem C1_capture_raises_on_non_object_config :
    PostHogTelemetry.capture { enabled := true, api_key := "key" }
      (fun n => toString n) "2026-01-01T00:00:00+00:00"
      { fs := FileState.content (.arr [.num 1, .num 2]), writable := true,
        counter := 0 }
      "apimesh_run_started" none none =
    Except.error (PyExc.attributeError "list") := by rfl

/-- C2 (code_bug): the spec says the stage scope always re-raises the wrapped
work's own failure; but when `capture` raises inside the `finally:` block
(config file holding the valid non-object JSON `[1, 2]`), Python lets that
exception replace the in-flight one, so the caller sees `AttributeError`
instead of the work's `ValueError`. -/
theorem C2_stage_replaces_failure_when_capture_raises :
    PostHogTelemetry.stage { enabled := true, api_key := "key" }
      (fun n => toString n) "2026-01-01T00:00:00+00:00"
      { fs := FileState.content (.arr [.num 1, .num 2]), writable := true,
        counter := 0 }
      "run-1" "analysis" none (Except.error (.valueError "boom")) 0 2 =
      { world := { fs := FileState.content (.arr [.num 1, .num 2]),
                   writable := true, counter := 0 },
        dispatched := none,
        raised := some (PyExc.attributeError "list") } ∧
    PyExc.typeName (PyExc.attributeError "list") ≠
      PyExc.typeName (PyExc.valueError "boom") := by
  exact ⟨rfl, by decide⟩

/-- C3 counterexample: with `APIMESH_TELEMETRY` set to `0` — a value other
than `1` — the flag resolves to disabled, not to the compiled-in default
(which is enabled), refuting "set to any other value, the compiled-in
default is used". -/
theorem C3_counterexample :
    resolve_enabled_flag (some "0") = false ∧
    DEFAULT_TELEMETRY_ENABLED = true := ⟨rfl, rfl⟩

/-- C3 (amended): `from_env` enables telemetry exactly when
`APIMESH_TELEMETRY` is absent (the compiled-in default, enabled, is used)
or set to the string `1`; any other value disables telemetry. -/
theorem C3_from_env_enabled_iff (env : Env) :
    (PostHogTelemetry.from_env env).enabled = true ↔
      env.telemetry = none ∨ env.telemetry = some "1" := by
  rw [from_env_enabled_eq]
  cases htel : env.telemetry with
  | none => simp [resolve_enabled_flag, DEFAULT_TELEMETRY_ENABLED]
  | some s => simp [resolve_enabled_flag]

/-- C6: with `APIMESH_TELEMETRY=0`, the object `from_env` builds is disabled
and every `capture` invocation returns immediately with no install-id
resolution, no payload and no dispatch, whatever the API key resolution. -/
theorem C6_env_zero_makes_capture_a_noop (env : Env) (gen : Nat → String)
    (now : String) (st : World) (event : String) (props : Option Dict)
    (ts : Option String) (h : env.telemetry = some "0") :
    (PostHogTelemetry.from_env env).enabled = false ∧
    (PostHogTelemetry.from_env env).capture gen now st event props ts =
      Except.ok (st, none) := by
  have he : (PostHogTelemetry.from_env env).enabled = false := by
    rw [from_env_enabled_eq, h]
    rfl
  refine ⟨he, ?_⟩
  unfold PostHogTelemetry.capture
  rw [he]
  rfl

/-- Witness for C6 at a concrete environment and world. -/
theorem C6_env_zero_makes_capture_a_noop_witness :
    (PostHogTelemetry.from_env
      { telemetry := some "0", posthog_api_key := none,
        default_posthog_api_key := none, posthog_host := none,
        default_posthog_host := none }).enabled = false ∧
    (PostHogTelemetry.from_env
      { telemetry := some "0", posthog_api_key := none,
        default_posthog_api_key := none, posthog_host := none,
        default_posthog_host := none }).capture (fun n => toString n)
      "2026-01-01T00:00:00+00:00"
      { fs := FileState.missing, writable := true, counter := 0 }
      "apimesh_run_started" none none =
      Except.ok ({ fs := FileState.missing, writable := true, counter := 0 },
                 none) :=
  C6_env_zero_makes_capture_a_noop _ _ _ _ _ _ _ rfl

/-- C7: a telemetry object built the way `from_env` builds it
(`enabled and bool(api_key)`, line 96) with an empty resolved API key has
`enabled = false` — even when the flag resolved true — and every `capture`
invocation on it is a no-op.  (Through `from_env` itself the resolved key is
in fact never empty: see the C10 theorem.) -/
theorem C7_empty_resolved_key_disables (flag : Bool) (host : String)
    (gen : Nat → String) (now : String) (st : World) (event : String)
    (props : Option Dict) (ts : Option String) :
    ({ enabled := effective_enabled flag "", api_key := "", host := host } :
        PostHogTelemetry).enabled = false ∧
    PostHogTelemetry.capture
      { enabled := effective_enabled flag "", api_key := "", host := host }
      gen now st event props ts = Except.ok (st, none) := by
  have he : effective_enabled flag "" = false := by
    simp [effective_enabled]
  exact ⟨he, by unfold PostHogTelemetry.capture; simp [he]⟩

/-- C10: for every environment the API key `from_env` resolves is non-empty
(the compiled-in default backstops the two variables), so the `enabled`
field equals the flag resolution alone and the empty-key disable path is
unreachable through `from_env`. -/
theorem C10_resolved_key_never_empty (env : Env) :
    resolve_api_key env ≠ "" ∧
    (PostHogTelemetry.from_env env).api_key ≠ "" ∧
    (PostHogTelemetry.from_env env).enabled =
      resolve_enabled_flag env.telemetry := by
  refine ⟨resolve_api_key_ne_empty env, ?_, from_env_enabled_eq env⟩
  have hk : (PostHogTelemetry.from_env env).api_key = resolve_api_key env := rfl
  rw [hk]
  exact resolve_api_key_ne_empty env

/-- C4 counterexample: on an unwritable config store with no id, the save
fails silently, so the second call generates a different id than the first —
refuting "starting from any config file state with no install id stored,
every subsequent call returns the same id string as the first call". -/
theorem C4_counterexample :
    get_or_create_install_id (fun n => toString n)
      { fs := FileState.missing, writable := false, counter := 0 } =
      Except.ok ({ fs := FileState.missing, writable := false, counter := 1 },
                 .str "0") ∧
    get_or_create_install_id (fun n => toString n)
      { fs := FileState.missing, writable := false, counter := 1 } =
      Except.ok ({ fs := FileState.missing, writable := false, counter := 2 },
                 .str "1") ∧
    JValue.str "0" ≠ JValue.str "1" := by
  refine ⟨rfl, rfl, fun h => ?_⟩
  injection h with h2
  exact absurd h2 (by decide)

/-- C4 (amended): starting from a config store that loads to an object with
no (truthy) install id, provided the store is writable (so the save
succeeds) and the generated UUID is non-empty, the first call stores
`gen st.counter`, every subsequent call returns that same id with no further
state change, and every pre-existing key other than the install-id key maps
to exactly the value it had before. -/
theorem C4_first_creation_then_stable (gen : Nat → String) (st : World)
    (d : Dict) (n : Nat) (k : String)
    (hw : st.writable = true)
    (hload : load_json st.fs = JValue.obj d)
    (hno : (dictGet d INSTALL_ID_KEY).all falsy = true)
    (hgen : gen st.counter ≠ "")
    (hk : k ≠ INSTALL_ID_KEY) :
    get_or_create_install_id gen st =
      Except.ok
        ({ fs := FileState.content
             (.obj (dictSet d INSTALL_ID_KEY (.str (gen st.counter)))),
           writable := true, counter := st.counter + 1 },
         .str (gen st.counter)) ∧
    nth_call gen st n =
      Except.ok
        ({ fs := FileState.content
             (.obj (dictSet d INSTALL_ID_KEY (.str (gen st.counter)))),
           writable := true, counter := st.counter + 1 },
         .str (gen st.counter)) ∧
    dictGet (dictSet d INSTALL_ID_KEY (.str (gen st.counter))) INSTALL_ID_KEY =
      some (.str (gen st.counter)) ∧
    dictGet (dictSet d INSTALL_ID_KEY (.str (gen st.counter))) k =
      dictGet d k := by
  have h0 : get_or_create_install_id gen st =
      Except.ok
        ({ fs := FileState.content
             (.obj (dictSet d INSTALL_ID_KEY (.str (gen st.counter)))),
           writable := true, counter := st.counter + 1 },
         .str (gen st.counter)) := by
    rw [get_or_create_creates gen st d hload hno, hw]
    simp [save_json]
  have h1 : get_or_create_install_id gen
      { fs := FileState.content
          (.obj (dictSet d INSTALL_ID_KEY (.str (gen st.counter)))),
        writable := true, counter := st.counter + 1 } =
      Except.ok
        ({ fs := FileState.content
             (.obj (dictSet d INSTALL_ID_KEY (.str (gen st.counter)))),
           writable := true, counter := st.counter + 1 },
         .str (gen st.counter)) := by
    exact get_or_create_of_truthy gen
      { fs := FileState.content
          (.obj (dictSet d INSTALL_ID_KEY (.str (gen st.counter)))),
        writable := true, counter := st.counter + 1 }
      (dictSet d INSTALL_ID_KEY (.str (gen st.counter)))
      (.str (gen st.counter)) rfl
      (dictGet_dictSet_self d INSTALL_ID_KEY (.str (gen st.counter)))
      (by simp [falsy, hgen])
  exact ⟨h0, nth_call_const gen st _ _ h0 h1 n,
    dictGet_dictSet_self d INSTALL_ID_KEY (.str (gen st.counter)),
    dictGet_dictSet_ne d INSTALL_ID_KEY k (.str (gen st.counter)) hk⟩

/-- Witness for C4 at a concrete fresh writable store with one unrelated
pre-existing key. -/
theorem C4_first_creation_then_stable_witness :
    get_or_create_install_id (fun n => toString n)
      { fs := FileState.content (.obj [("api_base", .str "https://x")]),
        writable := true, counter := 0 } =
      Except.ok
        ({ fs := FileState.content
             (.obj (dictSet [("api_base", .str "https://x")] INSTALL_ID_KEY
                (.str ((fun n => toString n) 0)))),
           writable := true, counter := 0 + 1 },
         .str ((fun n => toString n) 0)) ∧
    nth_call (fun n => toString n)
      { fs := FileState.content (.obj [("api_base", .str "https://x")]),
        writable := true, counter := 0 } 3 =
      Except.ok
        ({ fs := FileState.content
             (.obj (dictSet [("api_base", .str "https://x")] INSTALL_ID_KEY
                (.str ((fun n => toString n) 0)))),
           writable := true, counter := 0 + 1 },
         .str ((fun n => toString n) 0)) ∧
    dictGet (dictSet [("api_base", .str "https://x")] INSTALL_ID_KEY
        (.str ((fun n => toString n) 0))) INSTALL_ID_KEY =
      some (.str ((fun n => toString n) 0)) ∧
    dictGet (dictSet [("api_base", .str "https://x")] INSTALL_ID_KEY
        (.str ((fun n => toString n) 0))) "api_base" =
      dictGet [("api_base", .str "https://x")] "api_base" :=
  C4_first_creation_then_stable (fun n => toString n)
    { fs := FileState.content (.obj [("api_base", .str "https://x")]),
      writable := true, counter := 0 }
    [("api_base", .str "https://x")] 3 "api_base" rfl rfl rfl
    (by decide) (by decide)

/-- C5 counterexample: a config file whose object does hold the install-id
key, with the falsy stored value of the empty string, is not returned:
`if not iid:` regenerates a fresh id and rewrites the file — refuting "for
every config file whose JSON object contains the install-id key, the stored
value is returned and nothing is written". -/
theorem C5_counterexample :
    get_or_create_install_id (fun n => toString n)
      { fs := FileState.content (.obj [("telemetry_install_id", .str "")]),
        writable := true, counter := 0 } =
      Except.ok
        ({ fs := FileState.content
             (.obj [("telemetry_install_id", .str "0")]),
           writable := true, counter := 1 }, .str "0") ∧
    JValue.str "0" ≠ JValue.str "" := by
  refine ⟨rfl, fun h => ?_⟩
  injection h with h2
  exact absurd h2 (by decide)

/-- C5 (amended): when the config object holds the install-id key with a
truthy value (in particular any non-empty string), every call returns that
stored value unchanged, performs no write, and never regenerates the id on
any later call. -/
theorem C5_truthy_stored_id_is_kept (gen : Nat → String) (st : World)
    (d : Dict) (v : JValue) (n : Nat)
    (hload : load_json st.fs = JValue.obj d)
    (hget : dictGet d INSTALL_ID_KEY = some v)
    (ht : falsy v = false) :
    get_or_create_install_id gen st = Except.ok (st, v) ∧
    nth_call gen st n = Except.ok (st, v) := by
  have h0 := get_or_create_of_truthy gen st d v hload hget ht
  exact ⟨h0, nth_call_const gen st st v h0 h0 n⟩

/-- Helper: on a config that loads to an object, the getter never raises. -/
theorem get_or_create_ok_of_obj (gen : Nat → String) (st : World) (d : Dict)
    (hload : load_json st.fs = JValue.obj d) :
    ∃ st1 i, get_or_create_install_id gen st = Except.ok (st1, i) := by
  cases hc : (dictGet d INSTALL_ID_KEY).all falsy with
  | true => exact ⟨_, _, get_or_create_creates gen st d hload hc⟩
  | false =>
      cases hget : dictGet d INSTALL_ID_KEY with
      | none => rw [hget] at hc; simp [Option.all] at hc
      | some v =>
          rw [hget] at hc
          exact ⟨st, v, get_or_create_of_truthy gen st d v hload hget
            (by simpa [Option.all] using hc)⟩

/-- Helper: `capture` on an enabled object whose install-id resolution
succeeds dispatches exactly the payload of lines 110-116. -/
theorem capture_ok_of_enabled (t : PostHogTelemetry) (gen : Nat → String)
    (now : String) (st : World) (event : String) (props : Option Dict)
    (ts : Option String) (st1 : World) (i : JValue)
    (hen : t.enabled = true)
    (hok : get_or_create_install_id gen st = Except.ok (st1, i)) :
    t.capture gen now st event props ts =
      Except.ok (st1, some
        { api_key := t.api_key, distinct_id := i, event := event,
          properties := props.getD [], timestamp := pyOr (ts.getD "") now }) := by
  unfold PostHogTelemetry.capture
  rw [hen, hok]
  rfl

/-- Helper: the truncation `int((t1 - t0) * 1000)` of a non-negative elapsed
time is its floor: non-negative, at most the elapsed value and within one
unit of it. -/
theorem py_int_nonneg_bounds (q : ℚ) (h : 0 ≤ q) :
    0 ≤ py_int q ∧ (py_int q : ℚ) ≤ q ∧ q < (py_int q : ℚ) + 1 := by
  have hf : py_int q = ⌊q⌋ := by
    unfold py_int
    rw [if_pos h]
    rfl
  rw [hf]
  exact ⟨Int.floor_nonneg.mpr h, Int.floor_le q, Int.lt_floor_add_one q⟩

/-- Witness for C5 on a store already holding a non-empty install id. -/
theorem C5_truthy_stored_id_is_kept_witness :
    get_or_create_install_id (fun n => toString n)
      { fs := FileState.content
          (.obj [("telemetry_install_id", .str "abc-123")]),
        writable := true, counter := 0 } =
      Except.ok
        ({ fs := FileState.content
             (.obj [("telemetry_install_id", .str "abc-123")]),
           writable := true, counter := 0 }, .str "abc-123") ∧
    nth_call (fun n => toString n)
      { fs := FileState.content
          (.obj [("telemetry_install_id", .str "abc-123")]),
        writable := true, counter := 0 } 4 =
      Except.ok
        ({ fs := FileState.content
             (.obj [("telemetry_install_id", .str "abc-123")]),
           writable := true, counter := 0 }, .str "abc-123") :=
  C5_truthy_stored_id_is_kept (fun n => toString n) _ _ _ 4 rfl rfl rfl

/-- C8 counterexample: the claim quantifies over every extra map, but the
caller-supplied extra is merged last — with `extra = [("error_type",
"Phantom")]` a successful stage emits an event whose properties do contain
an `error_type` key, refuting "success = true and no error_type key". -/
theorem C8_counterexample :
    ((PostHogTelemetry.stage { enabled := true, api_key := "key" }
        (fun n => toString n) "2026-01-01T00:00:00+00:00"
        { fs := FileState.missing, writable := true, counter := 0 }
        "run-1" "analysis" (some [("error_type", JValue.str "Phantom")])
        (Except.ok ()) 0 2).dispatched.bind
      (fun p => dictGet p.properties "error_type")) =
      some (JValue.str "Phantom") ∧
    some (JValue.str "Phantom") ≠ (none : Option JValue) := by
  refine ⟨rfl, fun h => ?_⟩
  exact Option.noConfusion h

/-- C8 (amended): when the wrapped work completes normally and the
caller-supplied extra map does not itself set `success`, `error_type` or
`duration_ms`, a stage on an enabled telemetry object whose config loads to
a JSON object dispatches exactly one `apimesh_stage_finished` event whose
properties have `success = true` and no `error_type` key, and whose
`duration_ms` is the floor of the elapsed wall-clock milliseconds:
non-negative, at most the elapsed value and within one millisecond of it
(clock readings non-decreasing). -/
theorem C8_success_stage_event (t : PostHogTelemetry) (gen : Nat → String)
    (now : String) (st : World) (d : Dict) (run_id name : String)
    (extra : Dict) (t0 t1 : ℚ)
    (hen : t.enabled = true)
    (hload : load_json st.fs = JValue.obj d)
    (hs : dictGet extra "success" = none)
    (he : dictGet extra "error_type" = none)
    (hd : dictGet extra "duration_ms" = none)
    (htime : t0 ≤ t1) :
    ∃ p : Payload,
      (t.stage gen now st run_id name (some extra)
        (Except.ok ()) t0 t1).dispatched = some p ∧
      (t.stage gen now st run_id name (some extra)
        (Except.ok ()) t0 t1).raised = none ∧
      p.event = "apimesh_stage_finished" ∧
      dictGet p.properties "success" = some (.bool true) ∧
      dictGet p.properties "error_type" = none ∧
      dictGet p.properties "duration_ms" =
        some (.num (py_int ((t1 - t0) * 1000))) ∧
      0 ≤ py_int ((t1 - t0) * 1000) ∧
      (py_int ((t1 - t0) * 1000) : ℚ) ≤ (t1 - t0) * 1000 ∧
      (t1 - t0) * 1000 < (py_int ((t1 - t0) * 1000) : ℚ) + 1 := by
  obtain ⟨st1, i, hok⟩ := get_or_create_ok_of_obj gen st d hload
  have hq : (0 : ℚ) ≤ (t1 - t0) * 1000 := by
    have : (0 : ℚ) ≤ t1 - t0 := by linarith
    nlinarith
  obtain ⟨hb0, hb1, hb2⟩ := py_int_nonneg_bounds ((t1 - t0) * 1000) hq
  have hcap := capture_ok_of_enabled t gen now st "apimesh_stage_finished"
    (some (stage_props run_id name (py_int ((t1 - t0) * 1000)) true none
      (some extra))) none st1 i hen hok
  have hstage : t.stage gen now st run_id name (some extra)
      (Except.ok ()) t0 t1 =
      { world := st1,
        dispatched := some
          { api_key := t.api_key, distinct_id := i,
            event := "apimesh_stage_finished",
            properties := stage_props run_id name
              (py_int ((t1 - t0) * 1000)) true none (some extra),
            timestamp := pyOr "" now },
        raised := none } := by
    show stage_finally t gen now st run_id name (some extra) true none none
        t0 t1 = _
    unfold stage_finally
    rw [hcap]
    rfl
  refine ⟨_, by rw [hstage], by rw [hstage], rfl, ?_, ?_, ?_, hb0, hb1, hb2⟩
  · -- success
    cases hextra : extra with
    | nil =>
        show dictGet (stage_props run_id name _ true none (some [])) _ = _
        rfl
    | cons q qs =>
        show dictGet (stage_props run_id name _ true none (some (q :: qs)))
          "success" = some (.bool true)
        unfold stage_props
        rw [← hextra]
        have hne : extra.isEmpty = false := by rw [hextra]; rfl
        simp only [hne, Bool.false_eq_true, if_false]
        rw [dictGet_dictUpdate_of_none _ _ _ hs]
        rfl
  · -- error_type
    cases hextra : extra with
    | nil =>
        show dictGet (stage_props run_id name _ true none (some [])) _ = _
        rfl
    | cons q qs =>
        show dictGet (stage_props run_id name _ true none (some (q :: qs)))
          "error_type" = none
        unfold stage_props
        rw [← hextra]
        have hne : extra.isEmpty = false := by rw [hextra]; rfl
        simp only [hne, Bool.false_eq_true, if_false]
        rw [dictGet_dictUpdate_of_none _ _ _ he]
        rfl
  · -- duration_ms
    cases hextra : extra with
    | nil =>
        show dictGet (stage_props run_id name _ true none (some [])) _ = _
        rfl
    | cons q qs =>
        show dictGet (stage_props run_id name _ true none (some (q :: qs)))
          "duration_ms" = some (.num (py_int ((t1 - t0) * 1000)))
        unfold stage_props
        rw [← hextra]
        have hne : extra.isEmpty = false := by rw [hextra]; rfl
        simp only [hne, Bool.false_eq_true, if_false]
        rw [dictGet_dictUpdate_of_none _ _ _ hd]
        rfl

/-- Witness for C8: enabled telemetry, a missing config file (loads as the
empty object), a non-colliding extra map and a 2-second elapsed window. -/
theorem C8_success_stage_event_witness :
    ∃ p : Payload,
      (PostHogTelemetry.stage { enabled := true, api_key := "key" }
        (fun n => toString n) "2026-01-01T00:00:00+00:00"
        { fs := FileState.missing, writable := true, counter := 0 }
        "run-1" "analysis" (some [("step", JValue.str "one")])
        (Except.ok ()) 0 2).dispatched = some p ∧
      (PostHogTelemetry.stage { enabled := true, api_key := "key" }
        (fun n => toString n) "2026-01-01T00:00:00+00:00"
        { fs := FileState.missing, writable := true, counter := 0 }
        "run-1" "analysis" (some [("step", JValue.str "one")])
        (Except.ok ()) 0 2).raised = none ∧
      p.event = "apimesh_stage_finished" ∧
      dictGet p.properties "success" = some (.bool true) ∧
      dictGet p.properties "error_type" = none ∧
      dictGet p.properties "duration_ms" =
        some (.num (py_int ((2 - 0) * 1000))) ∧
      0 ≤ py_int ((2 - 0) * 1000) ∧
      (py_int ((2 - 0) * 1000) : ℚ) ≤ (2 - 0) * 1000 ∧
      ((2 : ℚ) - 0) * 1000 < (py_int ((2 - 0) * 1000) : ℚ) + 1 :=
  C8_success_stage_event { enabled := true, api_key := "key" }
    (fun n => toString n) "2026-01-01T00:00:00+00:00"
    { fs := FileState.missing, writable := true, counter := 0 } []
    "run-1" "analysis" [("step", JValue.str "one")] 0 2
    rfl rfl rfl rfl rfl (by norm_num)

/-- C9: the caller-supplied extra map is merged after the built-in fields,
so for every key of extra — in particular one colliding with `run_id`,
`stage`, `duration_ms`, `success` or `error_type` — the emitted properties
carry the caller's value, the built-in one silently discarded. -/
theorem C9_extra_overrides_builtin_fields (run_id name : String)
    (dt_ms : Int) (ok : Bool) (err_type : Option String) (extra : Dict)
    (k : String) (v : JValue)
    (hnd : (extra.map Prod.fst).Nodup)
    (hget : dictGet extra k = some v) :
    dictGet (stage_props run_id name dt_ms ok err_type (some extra)) k =
      some v := by
  have hne : extra.isEmpty = false := by
    cases extra with
    | nil => simp [dictGet] at hget
    | cons q qs => rfl
  unfold stage_props
  simp only [hne, Bool.false_eq_true, if_false]
  exact dictGet_dictUpdate_of_some _ _ _ _ hnd hget

/-- Witness for C9: extra sets `success` to false on an otherwise successful
stage, and the emitted properties carry the caller's false. -/
theorem C9_extra_overrides_builtin_fields_witness :
    dictGet (stage_props "run-1" "analysis" 5 true none
      (some [("success", JValue.bool false)])) "success" =
      some (JValue.bool false) :=
  C9_extra_overrides_builtin_fields "run-1" "analysis" 5 true none
    [("success", JValue.bool false)] "success" (JValue.bool false)
    (by simp) rfl
